import Mathlib

/-! Shallow embedding of the Capstone "Analisis Berlayar" sensor firmware.

Embeds `src/sensor/main.cpp`: the telemetry record (`dataPacket`), the
ultrasonic tide parser (`updateUS`), the anemometer debounce and window
logic (`updateAnemometer`), the wind-direction parser (`updateWD`), the
LoRa uplink encoder (`sendData`) and the feasibility evaluator
(`analyzeFeasibility`).

Modelling conventions: C++ `float` values are embedded as `ℚ` (the
calibration polynomial, thresholds and comparisons are exact at the
values the claims mention); `unsigned char` / `byte` variables are `Nat`
reduced mod 256 where the source wraps; the 32-bit `micros()` clock and
the `long` cast in the debounce test are embedded with explicit mod-2^32
arithmetic and a signed reinterpretation.
-/

/-- The modulus 2^32 of `unsigned long` / `micros()` on the ESP32 target. -/
def UINT32 : Nat := 4294967296

/-- The signed/unsigned boundary 2^31 of a 32-bit `long`. -/
def INT32_MIN_MAG : Nat := 2147483648

/-- Reinterpret a 32-bit unsigned value as a signed 32-bit `long`
(the cast `long(micros() - last_micros)` in `updateAnemometer`). -/
def toSigned32 (x : Nat) : Int :=
  if x < INT32_MIN_MAG then (x : Int) else (x : Int) - (UINT32 : Int)

/-- C cast of a (possibly negative) `int` to `unsigned int`,
as happens when `String::substring(unsigned,unsigned)` receives the
`int` results of `indexOf`. -/
def toUnsigned32 (x : Int) : Nat := (x % (UINT32 : Int)).toNat

/-- The telemetry record `struct dataPacket` from `main.cpp`.
`float` fields are embedded as `ℚ`, Arduino `String` fields as `String`. -/
structure dataPacket where
  temperature : ℚ
  humidity : ℚ
  pressure : ℚ
  speed : ℚ
  waveCount : Int
  direction : String
  shoreStatus : String
deriving DecidableEq

/-- Tide (pasang/surut) threshold in mm: `Depth_threshold 500`. -/
def Depth_threshold : Nat := 500

/-- Anemometer window length in seconds, `unsigned long timemeasure`:
the `10.00` literal is truncated to the integer 10 by the
`unsigned long` declaration. -/
def timemeasure : Nat := 10

/-! Ultrasonic tide parser (`updateUS`, frame level).

`updateUS` first byte-aligns on `0xFF` over the serial port (I/O, not
modelled) and then validates the captured 4-byte frame `data[0..3]`.
The embedding takes the four frame bytes directly. -/

/-- Checksum `sum = (data[0] + data[1] + data[2]) & 0x00FF` from `updateUS`. -/
def us_checksum (d0 d1 d2 : Nat) : Nat := (d0 + d1 + d2) % 256

/-- Distance `(data[1] << 8) + data[2]` from `updateUS` (in mm; the
`float` holding it is exact for all 16-bit values). -/
def usDistance (d1 d2 : Nat) : Nat := d1 * 256 + d2

/-- A frame is accepted (reaches the distance/shoreStatus assignment in
`updateUS`) when the sync byte is `0xFF` and the checksum matches. -/
def usAccept (d0 d1 d2 d3 : Nat) : Bool :=
  d0 == 255 && us_checksum d0 d1 d2 == d3

/-- The frame-validation body of `updateUS` (lines 138-150): on the `0xFF`
sync byte and a matching checksum the shore status is written from the
distance against `Depth_threshold`; otherwise (wrong sync byte, or the
`Serial.println("ERROR")` checksum branch) the record is returned as it
came in. -/
def updateUS (d0 d1 d2 d3 : Nat) (input : dataPacket) : dataPacket :=
  if d0 == 255 then
    if us_checksum d0 d1 d2 == d3 then
      if usDistance d1 d2 < Depth_threshold then
        { input with shoreStatus := "PASANG" }
      else
        { input with shoreStatus := "SURUT" }
    else input
  else input

/-! Anemometer (`updateAnemometer`).

State shared between the ISR `rpm_anemometer` and `updateAnemometer`.
`rpmcount` is a `volatile byte` (wraps at 256), `last_micros` a 32-bit
`unsigned long` register, `countUpdate` an `int`. The millis-based guard
`(millis() - timeold) >= timemeasure * 1000` only decides *when* a window
closes; `windowClose` below embeds the body that runs at that moment. -/

structure AnemoState where
  flag : Bool
  last_micros : Nat
  rpmcount : Nat
  countUpdate : Int
deriving DecidableEq

/-- The state after `init_Anemometer` (`rpmcount = 0`, timers zeroed). -/
def anemoInit : AnemoState :=
  { flag := false, last_micros := 0, rpmcount := 0, countUpdate := 0 }

/-- Reading of `micros()` at absolute time `t` µs: a 32-bit wrapping counter. -/
def micros32 (t : Nat) : Nat := t % UINT32

/-- Unsigned 32-bit subtraction `micros() - last_micros` of the stored
register from the current counter value. -/
def elapsedMicros (t last : Nat) : Nat := (micros32 t + UINT32 - last) % UINT32

/-- Lines 95-101 of `updateAnemometer`: if the ISR flag is set, accept the
edge only when `long(micros() - last_micros) >= 5000`; on acceptance
increment `rpmcount` (a `byte`) and latch `last_micros`; clear the flag
unconditionally. -/
def anemoEdgeCheck (s : AnemoState) (t : Nat) : AnemoState :=
  if s.flag then
    if 5000 ≤ toSigned32 (elapsedMicros t s.last_micros) then
      { s with
        rpmcount := (s.rpmcount + 1) % 256
        last_micros := micros32 t
        flag := false }
    else { s with flag := false }
  else s

/-- A rising edge observed at time `t`: the ISR `rpm_anemometer` sets
`flag`, and the next `updateAnemometer` pass runs the debounce check. -/
def observeEdge (s : AnemoState) (t : Nat) : AnemoState :=
  anemoEdgeCheck { s with flag := true } t

/-- The calibration polynomial of line 108:
`(-0.0181 * r²) + (1.3859 * r) + 1.4055` (meters per second). -/
def calibSpeed (r : ℚ) : ℚ := -0.0181 * (r * r) + 1.3859 * r + 1.4055

/-- Lines 109-111: readings at or below the 1.5 m/s sensor floor are
forced to `0.0`. -/
def clampSpeed (v : ℚ) : ℚ := if v ≤ 1.5 then 0 else v

/-- Lines 103-120 of `updateAnemometer`, the window-close body: increment
`countUpdate`, compute `rotasi_per_detik = rpmcount / timemeasure` and the
clamped calibrated speed, publish it into the record only when
`countUpdate == 1` (then reset `countUpdate`), and zero `rpmcount` for the
next window. Returns the new state and `some speed` exactly when the
speed was written to the telemetry record. -/
def windowClose (s : AnemoState) : AnemoState × Option ℚ :=
  let cu := s.countUpdate + 1
  let r : ℚ := (s.rpmcount : ℚ) / (timemeasure : ℚ)
  let v := clampSpeed (calibSpeed r)
  if cu == 1 then
    ({ s with countUpdate := 0, rpmcount := 0 }, some v)
  else
    ({ s with countUpdate := cu, rpmcount := 0 }, none)

/-- Runs `n` consecutive window closes; returns the final state and how many
times the wind-speed field of the record was written. -/
def simulateCloses (s : AnemoState) : Nat → AnemoState × Nat
  | 0 => (s, 0)
  | n + 1 =>
    let step := windowClose s
    let rest := simulateCloses step.1 n
    (rest.1, (match step.2 with | some _ => 1 | none => 0) + rest.2)

/-! Wind-direction parser (`updateWD`). -/

/-- Arduino `String::indexOf` for a single-character pattern: index of the
first occurrence as an `int`, `-1` when absent. -/
def arduinoIndexOf (s : String) (c : Char) : Int :=
  match s.data.findIdx? (· == c) with
  | some i => (i : Int)
  | none => -1

/-- Arduino `String::substring(unsigned left, unsigned right)`: swaps the
bounds if `left > right`, returns `""` if `left ≥ length`, clamps `right`
to the length, and copies `[left, right)`. -/
def arduinoSubstring (s : String) (left right : Nat) : String :=
  let l := min left right
  let r := max left right
  if s.data.length ≤ l then ""
  else String.mk ((s.data.drop l).take (min r s.data.length - l))

/-- Token extraction `s_angin = WD_data.substring(a + 1, b)` where `a`/`b` are the `int`
results of `indexOf("*")` / `indexOf("#")`, implicitly cast to
`unsigned int` at the `substring` call. -/
def wdToken (line : String) : String :=
  let a := arduinoIndexOf line '*'
  let b := arduinoIndexOf line '#'
  arduinoSubstring line (toUnsigned32 (a + 1)) (toUnsigned32 b)

/-- The eight independent `if (s_angin.equals(...))` assignments of
`updateWD` (lines 159-182); a token matching none of them leaves the
direction field as it was. -/
def updateWD_token (s_angin dir : String) : String :=
  let dir := if s_angin = "1" then "selatan   " else dir
  let dir := if s_angin = "2" then "barat daya" else dir
  let dir := if s_angin = "3" then "barat     " else dir
  let dir := if s_angin = "4" then "barat laut" else dir
  let dir := if s_angin = "5" then "utara     " else dir
  let dir := if s_angin = "6" then "timur laut" else dir
  let dir := if s_angin = "7" then "timur     " else dir
  let dir := if s_angin = "8" then "tenggara  " else dir
  dir

/-- Effect of `updateWD` on one received line: extract the token between the
delimiters and run the assignment chain against the current direction
field. -/
def updateWD (line dir : String) : String := updateWD_token (wdToken line) dir

/-- The eight compass labels `updateWD` can write. -/
def wdLabels : List String :=
  ["selatan   ", "barat daya", "barat     ", "barat laut",
   "utara     ", "timur laut", "timur     ", "tenggara  "]

/-! Uplink encoder (`sendData`). -/

/-- Decimal digit characters of a natural number, most significant first
(fuel-based so that it reduces by `rfl`/`decide`). -/
def natReprAux : Nat → Nat → List Char
  | 0, _ => []
  | fuel + 1, n =>
    if n < 10 then [Nat.digitChar n]
    else natReprAux fuel (n / 10) ++ [Nat.digitChar (n % 10)]

def natRepr (n : Nat) : List Char := natReprAux (n + 1) n

/-- Modelled from the Arduino core (not under `src/`): `String(float)`
renders a float with two decimal places (sign, integer digits, `.`, two
fraction digits), rounding to the nearest hundredth. The hundredths value
`⌊100·q + 1/2⌋` is computed as `⌊(200·num + den) / (2·den)⌋` so that it
evaluates by kernel reduction. -/
def fmtFloat (q : ℚ) : String :=
  let m : Int := Rat.floor (Rat.divInt (q.num * 200 + q.den) (q.den * 2))
  let n := m.natAbs
  String.mk ((if m < 0 then ['-'] else []) ++ natRepr (n / 100) ++ ['.'] ++
    (if n % 100 < 10 then ['0'] else []) ++ natRepr (n % 100))

/-- The `Message` concatenation of `sendData` (lines 187-193), over the
already-textual fields. -/
def encodeFields (id tide temp press hum speed dir : String) : String :=
  id ++ "," ++ tide ++ "," ++ temp ++ "," ++ press ++ "," ++ hum ++ "," ++
    speed ++ "," ++ dir ++ ";"

/-- Encoder `sendData`: the single uplink line built from the record and the
station id (`String(float)` applied to the four float fields). -/
def sendData (input : dataPacket) (id : String) : String :=
  encodeFields id input.shoreStatus (fmtFloat input.temperature)
    (fmtFloat input.pressure) (fmtFloat input.humidity)
    (fmtFloat input.speed) input.direction

/-- The decoding step named by the spec: strip the trailing `;` and split
the line on `,`. -/
def splitLine (s : String) : List String :=
  (s.data.dropLast.splitOn ',').map String.mk

/-! Feasibility evaluator (`analyzeFeasibility`). -/

/-- Maximum safe wind speed in m/s: `float maxWindSpeed = 10.0;`. -/
def maxWindSpeed : ℚ := 10

/-- The two-element `unsafeDirections` array: `selatan` and `barat daya`. -/
def unsafeDirections : List String := ["selatan", "barat daya"]

/-- The `for (String dir : unsafeDirections)` loop with early `break`:
true iff the record's direction equals one of the unsafe labels. -/
def isUnsafeDirection (input : dataPacket) : Bool :=
  unsafeDirections.any (fun dir => input.direction == dir)

/-- Evaluator `analyzeFeasibility`: first-match decision list over tide, wind speed
and wind direction. -/
def analyzeFeasibility (input : dataPacket) : String :=
  if input.shoreStatus = "PASANG" then
    "Tidak aman berlayar: Air sedang pasang."
  else if maxWindSpeed < input.speed then
    "Tidak aman berlayar: Kecepatan angin terlalu tinggi."
  else if isUnsafeDirection input then
    "Tidak aman berlayar: Arah angin tidak mendukung."
  else
    "Aman untuk berlayar."

/-- A throwaway record used to instantiate universally quantified
theorems at concrete inputs. -/
def sampleRecord : dataPacket :=
  { temperature := 27, humidity := 80, pressure := 1013, speed := 3,
    waveCount := 0, direction := "utara     ", shoreStatus := "SURUT" }

/-! Theorems settling the claims. -/

/-- Claim C1: `analyzeFeasibility` is the first-match decision list: tide
`PASANG` (RISING) first and regardless of every other field, then wind
speed above 10.0 m/s, then an unsafe direction (`selatan` or
`barat daya`), else safe. -/
theorem analyzeFeasibility_decision_list (input : dataPacket) :
    analyzeFeasibility input =
      if input.shoreStatus = "PASANG" then
        "Tidak aman berlayar: Air sedang pasang."
      else if 10 < input.speed then
        "Tidak aman berlayar: Kecepatan angin terlalu tinggi."
      else if input.direction = "selatan" ∨ input.direction = "barat daya" then
        "Tidak aman berlayar: Arah angin tidak mendukung."
      else
        "Aman untuk berlayar." := by
  unfold analyzeFeasibility isUnsafeDirection unsafeDirections maxWindSpeed
  simp only [List.any_cons, List.any_nil, Bool.or_false, Bool.or_eq_true,
    beq_iff_eq]

/-- Claim C2 (code bug): Token `"1"` (south) makes `updateWD` store the
padded label `"selatan   "`, but `analyzeFeasibility` compares the
direction against the unpadded literal `"selatan"`, so a calm,
tide-falling record whose direction came from token `"1"` is reported
safe instead of `UNSAFE_WIND_DIRECTION`. -/
theorem south_direction_bug :
    updateWD "*1#" sampleRecord.direction = "selatan   " ∧
    analyzeFeasibility { sampleRecord with direction := "selatan   " } =
      "Aman untuk berlayar." := by
  constructor
  · decide
  · decide

/-- Claim C3 (counterexample): The line `"1#"` has no `*` delimiter, yet
`updateWD` does not drop it: `indexOf` returns `-1`, the substring starts
at index 0, the extracted token is `"1"`, and the direction field is
overwritten with a compass value. -/
theorem wd_missing_star_counterexample :
    '*' ∉ ("1#" : String).data ∧
    updateWD "1#" "utara     " = "selatan   " := by
  constructor
  · decide
  · decide

/-- Lemma: rebuilding a string from its character data is the identity. -/
theorem string_mk_data (s : String) : String.mk s.data = s := rfl

/-- Lemma: `findIdx?` returns `none` for a character absent from the
list (so Arduino `indexOf` returns `-1`). -/
theorem findIdxQ_eq_none (l : List Char) (c : Char) (h : c ∉ l) :
    l.findIdx? (· == c) = none := by
  rw [List.findIdx?_eq_none_iff]
  intro x hx
  simp only [beq_eq_false_iff_ne, ne_eq]
  exact fun e => h (e ▸ hx)

/-- Lemma: taking up to the first occurrence of `c` is taking while
not `c`. -/
theorem take_findIdx_eq_takeWhile (c : Char) (l : List Char) :
    l.take (l.findIdx (· == c)) = l.takeWhile (· != c) := by
  induction l with
  | nil => rfl
  | cons x xs ih =>
    by_cases h : x = c
    · simp [List.findIdx_cons, List.takeWhile_cons, cond_eq_if, h]
    · simp [List.findIdx_cons, List.takeWhile_cons, cond_eq_if, h, ih]

/-- Lemma: `takeWhile (· != c)` keeps the whole list when `c` does not
occur in it. -/
theorem takeWhile_ne_of_not_mem (c : Char) (l : List Char) (h : c ∉ l) :
    l.takeWhile (· != c) = l := by
  induction l with
  | nil => rfl
  | cons x xs ih =>
    simp only [List.mem_cons, not_or] at h
    have hx : (x != c) = true := by
      simp only [bne_iff_ne, ne_eq]
      exact fun e => h.1 e.symm
    rw [List.takeWhile_cons, if_pos hx, ih (by exact h.2)]

/-- Claim C3 (amended): When a delimiter is absent, `indexOf` yields `-1`
and the `unsigned` conversion at the `substring` call defaults that bound
to the corresponding end of the line instead of dropping the line: with
`*` absent the token runs from the start of the line up to the first `#`
(to the end of the line if `#` is absent too); with `#` absent the token
runs from just after the first `*` to the end of the line; with both
absent the token is the entire line. In every case the assignment chain
still matches the token against the codes `"1"`..`"8"` and updates the
direction on a match. -/
theorem wd_missing_delim_cases (line dir : String)
    (hlen : line.data.length < UINT32) :
    ('*' ∉ line.data →
      updateWD line dir =
        updateWD_token (String.mk (line.data.takeWhile (· != '#'))) dir) ∧
    ('#' ∉ line.data → '*' ∈ line.data →
      updateWD line dir =
        updateWD_token
          (String.mk (line.data.drop (line.data.findIdx (· == '*') + 1)))
          dir) ∧
    ('*' ∉ line.data → '#' ∉ line.data →
      updateWD line dir = updateWD_token line dir) := by
  have hlen' : line.data.length < 4294967296 := hlen
  have hboth : '*' ∉ line.data → '#' ∉ line.data → wdToken line = line := by
    intro hstar hhash
    unfold wdToken arduinoIndexOf
    rw [findIdxQ_eq_none line.data '*' hstar, findIdxQ_eq_none line.data '#' hhash]
    show arduinoSubstring line (toUnsigned32 (-1 + 1)) (toUnsigned32 (-1)) = line
    have e0 : toUnsigned32 (-1 + 1) = 0 := by decide
    have e1 : toUnsigned32 (-1) = 4294967295 := by decide
    rw [e0, e1]
    unfold arduinoSubstring
    show (if line.data.length ≤ min 0 4294967295 then ""
          else String.mk ((line.data.drop (min 0 4294967295)).take
            (min (max 0 4294967295) line.data.length - min 0 4294967295))) =
        line
    have hmin : min 0 4294967295 = 0 := by decide
    have hmax : max 0 4294967295 = 4294967295 := by decide
    rw [hmin, hmax]
    have hmin2 : min 4294967295 line.data.length = line.data.length := by
      omega
    rw [hmin2]
    rcases Nat.eq_zero_or_pos line.data.length with h0 | h0
    · rw [if_pos (by omega)]
      have hd : line.data = [] := List.length_eq_zero.mp h0
      cases line with
      | mk d =>
        have hd2 : d = [] := hd
        subst hd2
        rfl
    · rw [if_neg (by omega)]
      simp only [List.drop_zero, Nat.sub_zero, List.take_length]
  refine ⟨?_, ?_, ?_⟩
  · intro hstar
    by_cases hin : '#' ∈ line.data
    · have hex : ∃ x, x ∈ line.data ∧ (x == '#') = true := ⟨'#', hin, rfl⟩
      have hb : line.data.findIdx? (· == '#') =
          some (line.data.findIdx (· == '#')) :=
        List.findIdx?_eq_some_of_exists hex
      have hblt : line.data.findIdx (· == '#') < line.data.length :=
        List.findIdx_lt_length_of_exists hex
      have hw : wdToken line = String.mk (line.data.takeWhile (· != '#')) := by
        unfold wdToken arduinoIndexOf
        rw [findIdxQ_eq_none line.data '*' hstar, hb]
        show arduinoSubstring line (toUnsigned32 (-1 + 1))
            (toUnsigned32 ((line.data.findIdx (· == '#') : Int))) =
          String.mk (line.data.takeWhile (· != '#'))
        have e0 : toUnsigned32 (-1 + 1) = 0 := by decide
        have e1 : toUnsigned32 ((line.data.findIdx (· == '#') : Int)) =
            line.data.findIdx (· == '#') := by
          unfold toUnsigned32 UINT32
          omega
        rw [e0, e1]
        unfold arduinoSubstring
        show (if line.data.length ≤
                min 0 (line.data.findIdx (· == '#')) then ""
              else String.mk ((line.data.drop
                  (min 0 (line.data.findIdx (· == '#')))).take
                (min (max 0 (line.data.findIdx (· == '#')))
                    line.data.length -
                  min 0 (line.data.findIdx (· == '#'))))) =
            String.mk (line.data.takeWhile (· != '#'))
        have hmin : min 0 (line.data.findIdx (· == '#')) = 0 := by omega
        have hmax : max 0 (line.data.findIdx (· == '#')) =
            line.data.findIdx (· == '#') := by omega
        rw [hmin, hmax, if_neg (by omega)]
        have hmin2 : min (line.data.findIdx (· == '#')) line.data.length =
            line.data.findIdx (· == '#') := by omega
        rw [hmin2]
        simp only [List.drop_zero, Nat.sub_zero]
        rw [take_findIdx_eq_takeWhile]
      rw [updateWD, hw]
    · rw [updateWD, hboth hstar hin,
        takeWhile_ne_of_not_mem '#' line.data hin, string_mk_data]
  · intro hhash hstar
    have hex : ∃ x, x ∈ line.data ∧ (x == '*') = true := ⟨'*', hstar, rfl⟩
    have ha : line.data.findIdx? (· == '*') =
        some (line.data.findIdx (· == '*')) :=
      List.findIdx?_eq_some_of_exists hex
    have halt : line.data.findIdx (· == '*') < line.data.length :=
      List.findIdx_lt_length_of_exists hex
    have hw : wdToken line =
        String.mk (line.data.drop (line.data.findIdx (· == '*') + 1)) := by
      unfold wdToken arduinoIndexOf
      rw [ha, findIdxQ_eq_none line.data '#' hhash]
      show arduinoSubstring line
          (toUnsigned32 ((line.data.findIdx (· == '*') : Int) + 1))
          (toUnsigned32 (-1)) =
        String.mk (line.data.drop (line.data.findIdx (· == '*') + 1))
      have e0 : toUnsigned32 ((line.data.findIdx (· == '*') : Int) + 1) =
          line.data.findIdx (· == '*') + 1 := by
        unfold toUnsigned32 UINT32
        omega
      have e1 : toUnsigned32 (-1) = 4294967295 := by decide
      rw [e0, e1]
      unfold arduinoSubstring
      show (if line.data.length ≤
              min (line.data.findIdx (· == '*') + 1) 4294967295 then ""
            else String.mk ((line.data.drop
                (min (line.data.findIdx (· == '*') + 1) 4294967295)).take
              (min (max (line.data.findIdx (· == '*') + 1) 4294967295)
                  line.data.length -
                min (line.data.findIdx (· == '*') + 1) 4294967295))) =
          String.mk (line.data.drop (line.data.findIdx (· == '*') + 1))
      have hmin : min (line.data.findIdx (· == '*') + 1) 4294967295 =
          line.data.findIdx (· == '*') + 1 := by omega
      have hmax : max (line.data.findIdx (· == '*') + 1) 4294967295 =
          4294967295 := by omega
      rw [hmin, hmax]
      by_cases hend : line.data.length ≤ line.data.findIdx (· == '*') + 1
      · rw [if_pos hend]
        have he : line.data.findIdx (· == '*') + 1 = line.data.length := by
          omega
        rw [he, List.drop_length]
      · rw [if_neg hend]
        have hmin2 : min 4294967295 line.data.length = line.data.length := by
          omega
        rw [hmin2]
        congr 1
        have hlen2 : (line.data.drop
            (line.data.findIdx (· == '*') + 1)).length =
            line.data.length - (line.data.findIdx (· == '*') + 1) := by
          simp [List.length_drop]
        rw [← hlen2, List.take_length]
    rw [updateWD, hw]
  · intro hstar hhash
    rw [updateWD, hboth hstar hhash]

/-- Claim C3 (amended, witness): All three delimiter-absence cases at
concrete lines: `"1#"` (no `*`, token up to the `#`), `"*1"` (no `#`,
token after the `*`), and `"1"` (no delimiters, token is the line); each
extracts `"1"` and flips the direction to south. -/
theorem wd_missing_delim_cases_witness :
    updateWD "1#" "utara     " = "selatan   " ∧
    updateWD "*1" "utara     " = "selatan   " ∧
    updateWD "1" "utara     " = "selatan   " := by
  refine ⟨?_, ?_, ?_⟩
  · have h := (wd_missing_delim_cases "1#" "utara     " (by decide)).1
      (by decide)
    rw [h]
    decide
  · have h := (wd_missing_delim_cases "*1" "utara     " (by decide)).2.1
      (by decide) (by decide)
    rw [h]
    decide
  · have h := (wd_missing_delim_cases "1" "utara     " (by decide)).2.2
      (by decide) (by decide)
    rw [h]
    decide

/-- Claim C4: A 4-byte tide frame is accepted exactly when the sync byte is
`0xFF` and `(frame[0]+frame[1]+frame[2]) & 0xFF == frame[3]`; on
acceptance the distance is `frame[1]*256 + frame[2]` mm and the shore
status becomes `"PASANG"` (RISING) below 500 mm, `"SURUT"` (FALLING)
otherwise. -/
theorem us_frame_parse (d0 d1 d2 d3 : Nat) (h0 : d0 < 256) (h1 : d1 < 256)
    (h2 : d2 < 256) (h3 : d3 < 256) (input : dataPacket) :
    (usAccept d0 d1 d2 d3 = true ↔ d0 = 255 ∧ (d0 + d1 + d2) % 256 = d3) ∧
    (usAccept d0 d1 d2 d3 = true →
      updateUS d0 d1 d2 d3 input =
        { input with shoreStatus :=
            if d1 * 256 + d2 < 500 then "PASANG" else "SURUT" }) := by
  constructor
  · simp [usAccept, us_checksum]
  · intro hacc
    simp only [usAccept, us_checksum, Bool.and_eq_true, beq_iff_eq] at hacc
    have hb : (d0 == 255) = true := by simp [hacc.1]
    have hcs : (us_checksum d0 d1 d2 == d3) = true := by
      simp [us_checksum, hacc.2]
    by_cases hd : d1 * 256 + d2 < 500 <;>
      simp [updateUS, hb, hcs, usDistance, Depth_threshold, hd]

/-- Claim C4 (witness): The frame `[0xFF, 0x01, 0x2C, 0x2C]` is accepted,
its distance is 300 mm, and the shore status is set to `"PASANG"`. -/
theorem us_frame_parse_witness :
    usAccept 255 1 44 44 = true ∧ usDistance 1 44 = 300 ∧
    updateUS 255 1 44 44 sampleRecord =
      { sampleRecord with shoreStatus := "PASANG" } := by
  refine ⟨by decide, by decide, ?_⟩
  have h := (us_frame_parse 255 1 44 44 (by decide) (by decide) (by decide)
    (by decide) sampleRecord).2 (by decide)
  exact h.trans (by norm_num)

/-- Claim C5: A frame that fails validation (wrong sync byte or checksum
mismatch) leaves the telemetry record entirely unchanged. -/
theorem us_reject_unchanged (d0 d1 d2 d3 : Nat) (input : dataPacket)
    (h : usAccept d0 d1 d2 d3 = false) :
    updateUS d0 d1 d2 d3 input = input := by
  unfold updateUS
  by_cases hb0 : d0 = 255
  · subst hb0
    by_cases hcs : us_checksum 255 d1 d2 = d3
    · exfalso
      simp [usAccept, hcs] at h
    · simp [hcs]
  · simp [hb0]

/-- Claim C5 (witness): The frame `[0xFF, 0x01, 0x02, 0x63]` has a bad
checksum; parsing it returns the record unchanged. -/
theorem us_reject_unchanged_witness :
    usAccept 255 1 2 99 = false ∧
    updateUS 255 1 2 99 sampleRecord = sampleRecord :=
  ⟨by decide, us_reject_unchanged 255 1 2 99 sampleRecord (by decide)⟩

/-- Lemma: `elapsedMicros` computes the true separation modulo 2^32 whenever the
stored register value is at most the current time. -/
theorem elapsedMicros_eq (t last : Nat) (h1 : last ≤ t)
    (h2 : last < 4294967296) :
    elapsedMicros t last = (t - last) % 4294967296 := by
  unfold elapsedMicros micros32 UINT32
  have e1 : t % 4294967296 + 4294967296 - last =
      t % 4294967296 + (4294967296 - last) := by omega
  rw [e1, Nat.mod_add_mod]
  have e2 : t + (4294967296 - last) = (t - last) + 4294967296 := by omega
  rw [e2, Nat.add_mod_right]

theorem toSigned32_of_lt {x : Nat} (h : x < 2147483648) :
    toSigned32 x = (x : Int) := by
  unfold toSigned32 INT32_MIN_MAG
  rw [if_pos h]

theorem toSigned32_of_ge {x : Nat} (h : 2147483648 ≤ x) :
    toSigned32 x = (x : Int) - 4294967296 := by
  unfold toSigned32 INT32_MIN_MAG UINT32
  rw [if_neg (by omega)]
  norm_num

/-- An observed edge whose signed 32-bit separation passes the 5000 µs
debounce test increments `rpmcount` and latches the timestamp. -/
theorem observeEdge_accept (s : AnemoState) (t : Nat)
    (h : 5000 ≤ toSigned32 (elapsedMicros t s.last_micros)) :
    observeEdge s t =
      { s with rpmcount := (s.rpmcount + 1) % 256,
               last_micros := micros32 t, flag := false } := by
  simp [observeEdge, anemoEdgeCheck, h]

/-- An observed edge that fails the debounce test only clears the flag. -/
theorem observeEdge_reject (s : AnemoState) (t : Nat)
    (h : toSigned32 (elapsedMicros t s.last_micros) < 5000) :
    observeEdge s t = { s with flag := false } := by
  simp [observeEdge, anemoEdgeCheck, not_le.mpr h]

/-- Claim C7 (counterexample): Starting from `init_Anemometer` state, edges
at 5000 µs and 5000 + 2^31 µs are separated by 2^31 µs ≥ 5 ms, yet the
second edge is rejected — the pair counts as one pulse, not two — because
`long(micros() - last_micros)` reinterprets the 2^31 µs separation as a
negative signed value. -/
theorem anemo_debounce_counterexample :
    5000 ≤ (2147488648 : Nat) - 5000 ∧
    (observeEdge (observeEdge anemoInit 5000) 2147488648).rpmcount = 1 := by
  constructor
  · decide
  · decide

/-- Claim C7 (amended): From the initialized anemometer state, a first edge
at `t1` (past the debounce window, below the signed 32-bit boundary) is
accepted and clears the flag; a second edge at `t2` is rejected when the
separation is under 5000 µs (one pulse total) and accepted when the
separation is at least 5000 µs *and below 2^31 µs* (two pulses total);
the flag is cleared in both cases. -/
theorem anemo_debounce (t1 t2 : Nat) (h1 : 5000 ≤ t1)
    (h1b : t1 < 2147483648) (hle : t1 ≤ t2) (h2b : t2 < 4294967296) :
    (observeEdge anemoInit t1).rpmcount = 1 ∧
    (observeEdge anemoInit t1).flag = false ∧
    (t2 - t1 < 5000 →
      (observeEdge (observeEdge anemoInit t1) t2).rpmcount = 1 ∧
      (observeEdge (observeEdge anemoInit t1) t2).flag = false) ∧
    (5000 ≤ t2 - t1 → t2 - t1 < 2147483648 →
      (observeEdge (observeEdge anemoInit t1) t2).rpmcount = 2 ∧
      (observeEdge (observeEdge anemoInit t1) t2).flag = false) := by
  have hacc1 : 5000 ≤ toSigned32 (elapsedMicros t1 anemoInit.last_micros) := by
    show 5000 ≤ toSigned32 (elapsedMicros t1 0)
    rw [elapsedMicros_eq t1 0 (Nat.zero_le _) (by omega), Nat.sub_zero,
      Nat.mod_eq_of_lt (by omega), toSigned32_of_lt h1b]
    exact_mod_cast h1
  have hs1 : observeEdge anemoInit t1 =
      { flag := false, last_micros := t1, rpmcount := 1, countUpdate := 0 } := by
    rw [observeEdge_accept anemoInit t1 hacc1]
    simp [anemoInit, micros32, UINT32, Nat.mod_eq_of_lt (show t1 < 4294967296 by omega)]
  have hel2 : elapsedMicros t2 t1 = (t2 - t1) % 4294967296 :=
    elapsedMicros_eq t2 t1 hle (by omega)
  refine ⟨by rw [hs1], by rw [hs1], ?_, ?_⟩
  · intro hsep
    have hrej : toSigned32 (elapsedMicros t2
        ({ flag := false, last_micros := t1, rpmcount := 1,
           countUpdate := 0 } : AnemoState).last_micros) < 5000 := by
      show toSigned32 (elapsedMicros t2 t1) < 5000
      rw [hel2, Nat.mod_eq_of_lt (by omega),
        toSigned32_of_lt (by omega)]
      exact_mod_cast hsep
    rw [hs1, observeEdge_reject _ t2 hrej]
    exact ⟨rfl, rfl⟩
  · intro hsep hsep2
    have hacc2 : 5000 ≤ toSigned32 (elapsedMicros t2
        ({ flag := false, last_micros := t1, rpmcount := 1,
           countUpdate := 0 } : AnemoState).last_micros) := by
      show 5000 ≤ toSigned32 (elapsedMicros t2 t1)
      rw [hel2, Nat.mod_eq_of_lt (by omega), toSigned32_of_lt hsep2]
      exact_mod_cast hsep
    rw [hs1, observeEdge_accept _ t2 hacc2]
    exact ⟨rfl, rfl⟩

/-- Claim C7 (amended, witness): Edges at 5000 µs and 12000 µs (7 ms apart)
count as two pulses; edges at 5000 µs and 5001 µs (1 µs apart) count as
one. -/
theorem anemo_debounce_witness :
    (observeEdge (observeEdge anemoInit 5000) 12000).rpmcount = 2 ∧
    (observeEdge (observeEdge anemoInit 5000) 5001).rpmcount = 1 := by
  constructor
  · exact ((anemo_debounce 5000 12000 (by decide) (by decide) (by decide)
      (by decide)).2.2.2 (by decide) (by decide)).1
  · exact ((anemo_debounce 5000 5001 (by decide) (by decide) (by decide)
      (by decide)).2.2.1 (by decide)).1

/-- Claim C6: At a window close (with the publish counter in its invariant
state 0), the published speed is the calibration polynomial evaluated at
`rpmcount / timemeasure` rotations per second, clamped to 0 when at most
1.5 m/s; a window with zero pulses publishes exactly 0. -/
theorem windowClose_formula (s : AnemoState) (h : s.countUpdate = 0) :
    ((windowClose s).2 =
      some (let r : ℚ := (s.rpmcount : ℚ) / 10
            if -0.0181 * (r * r) + 1.3859 * r + 1.4055 ≤ 1.5 then 0
            else -0.0181 * (r * r) + 1.3859 * r + 1.4055)) ∧
    (s.rpmcount = 0 → (windowClose s).2 = some 0) := by
  have hpub : (windowClose s).2 =
      some (clampSpeed (calibSpeed ((s.rpmcount : ℚ) / (timemeasure : ℚ)))) := by
    simp [windowClose, h]
  constructor
  · rw [hpub]
    unfold clampSpeed calibSpeed timemeasure
    norm_num
  · intro h0
    rw [hpub, h0]
    unfold clampSpeed calibSpeed timemeasure
    norm_num

/-- Claim C6 (witness): Closing a window from the initialized state (zero
pulses) publishes a speed of exactly 0. -/
theorem windowClose_formula_witness :
    (windowClose anemoInit).2 = some 0 :=
  (windowClose_formula anemoInit rfl).2 rfl

/-- Claim C8: Over any `n` consecutive window closes the wind-speed field
of the telemetry record is written at most `n` times: the
`countUpdate` gating publishes at most once per close. -/
theorem speed_writes_at_most_once_per_window (s : AnemoState) (n : Nat) :
    (simulateCloses s n).2 ≤ n := by
  induction n generalizing s with
  | zero => simp [simulateCloses]
  | succ n ih =>
    have h1 := ih (windowClose s).1
    show (match (windowClose s).2 with | some _ => 1 | none => 0) +
        (simulateCloses (windowClose s).1 n).2 ≤ n + 1
    rcases (windowClose s).2 with _ | v <;> simp <;> omega


/-- Splitting on `','` peels off a comma-free first field. -/
theorem splitComma_cons (xs rest : List Char) (h : ',' ∉ xs) :
    (xs ++ ',' :: rest).splitOn ',' = xs :: rest.splitOn ',' := by
  have hp : ∀ x ∈ xs, ¬((x == ',') = true) := by
    intro x hx
    simp only [beq_iff_eq]
    exact fun e => h (e ▸ hx)
  exact List.splitOnP_first (· == ',') xs hp ',' (by simp) rest

/-- A comma-free list splits into itself. -/
theorem splitComma_single (xs : List Char) (h : ',' ∉ xs) :
    xs.splitOn ',' = [xs] := by
  have hp : ∀ x ∈ xs, ¬((x == ',') = true) := by
    intro x hx
    simp only [beq_iff_eq]
    exact fun e => h (e ▸ hx)
  exact List.splitOnP_eq_single (· == ',') xs hp

theorem digitChar_mem (n : Nat) (h : n < 10) :
    Nat.digitChar n ∈ ['0', '1', '2', '3', '4', '5', '6', '7', '8', '9'] := by
  interval_cases n <;> decide

theorem natReprAux_digits (fuel n : Nat) :
    ∀ c ∈ natReprAux fuel n,
      c ∈ ['0', '1', '2', '3', '4', '5', '6', '7', '8', '9'] := by
  induction fuel generalizing n with
  | zero => intro c hc; simp [natReprAux] at hc
  | succ f ih =>
    intro c hc
    unfold natReprAux at hc
    by_cases h : n < 10
    · rw [if_pos h] at hc
      simp only [List.mem_singleton] at hc
      subst hc
      exact digitChar_mem n h
    · rw [if_neg h] at hc
      rcases List.mem_append.mp hc with hc | hc
      · exact ih (n / 10) c hc
      · simp only [List.mem_singleton] at hc
        subst hc
        exact digitChar_mem _ (Nat.mod_lt _ (by norm_num))

theorem natRepr_no_comma (n : Nat) : ',' ∉ natRepr n := by
  intro h
  exact absurd (natReprAux_digits (n + 1) n ',' h) (by decide)

/-- Output of `String(float)` never contains a comma. -/
theorem fmtFloat_no_comma (q : ℚ) : ',' ∉ (fmtFloat q).data := by
  intro h
  have h' : ',' ∈
      ((if Rat.floor (Rat.divInt (q.num * 200 + q.den) (q.den * 2)) < 0
          then ['-'] else []) ++
        natRepr ((Rat.floor (Rat.divInt (q.num * 200 + q.den)
          (q.den * 2))).natAbs / 100) ++ ['.'] ++
        (if (Rat.floor (Rat.divInt (q.num * 200 + q.den)
            (q.den * 2))).natAbs % 100 < 10 then ['0'] else []) ++
        natRepr ((Rat.floor (Rat.divInt (q.num * 200 + q.den)
          (q.den * 2))).natAbs % 100)) := h
  simp only [List.mem_append, List.mem_singleton] at h'
  rcases h' with ((((h1 | h2) | h3) | h4) | h5)
  · exact absurd h1 (by split <;> decide)
  · exact natRepr_no_comma _ h2
  · exact absurd h3 (by decide)
  · exact absurd h4 (by split <;> decide)
  · exact natRepr_no_comma _ h5

/-- Claim C9: The `sendData` line, with the trailing `;` stripped and split
on `,`, reconstructs the seven fields (station id, tide label and the
textual forms of the four floats) in order, for every record whose
string-valued fields are comma-free — as all labels the firmware writes
are. -/
theorem sendData_roundtrip (input : dataPacket) (id : String)
    (hid : ',' ∉ id.data) (hts : ',' ∉ input.shoreStatus.data)
    (hdir : ',' ∉ input.direction.data) :
    splitLine (sendData input id) =
      [id, input.shoreStatus, fmtFloat input.temperature,
       fmtFloat input.pressure, fmtFloat input.humidity,
       fmtFloat input.speed, input.direction] := by
  have hcomma : ("," : String).data = [','] := rfl
  have hsemi : (";" : String).data = [';'] := rfl
  have hdata : (sendData input id).data =
      (id.data ++ ',' :: (input.shoreStatus.data ++ ',' ::
        ((fmtFloat input.temperature).data ++ ',' ::
          ((fmtFloat input.pressure).data ++ ',' ::
            ((fmtFloat input.humidity).data ++ ',' ::
              ((fmtFloat input.speed).data ++ ',' ::
                input.direction.data)))))) ++ [';'] := by
    simp [sendData, encodeFields, String.data_append, hcomma, hsemi,
      List.append_assoc]
  unfold splitLine
  rw [hdata, List.dropLast_concat]
  rw [splitComma_cons _ _ hid,
      splitComma_cons _ _ hts,
      splitComma_cons _ _ (fmtFloat_no_comma input.temperature),
      splitComma_cons _ _ (fmtFloat_no_comma input.pressure),
      splitComma_cons _ _ (fmtFloat_no_comma input.humidity),
      splitComma_cons _ _ (fmtFloat_no_comma input.speed),
      splitComma_single _ hdir]
  simp [string_mk_data]

/-- A concrete record used to exercise the round-trip. -/
def roundtripRecord : dataPacket :=
  { temperature := Rat.divInt 55 2, humidity := 80,
    pressure := Rat.divInt 4053 4, speed := 3,
    waveCount := 0, direction := "barat daya", shoreStatus := "SURUT" }

/-- Claim C9 (witness): Round-trip of a concrete record: the encoded line
splits back into the seven fields. -/
theorem sendData_roundtrip_witness :
    splitLine (sendData roundtripRecord "Jawa") =
      ["Jawa", "SURUT", "27.50", "1013.25", "80.00", "3.00",
       "barat daya"] := by
  have h := sendData_roundtrip roundtripRecord "Jawa" (by decide) (by decide)
    (by decide)
  rw [h]
  decide

/-- Claim C10: Every compass label `updateWD` can write is exactly 10
characters wide; `updateWD` either leaves the direction alone or writes
one of these labels; `sendData` embeds the stored direction field
verbatim just before the trailing `;`; and the feasibility evaluator's
direction test is a plain string comparison of that stored field against
`"selatan"` / `"barat daya"`. -/
theorem wd_labels_fixed_width :
    (wdLabels.map String.length = [10, 10, 10, 10, 10, 10, 10, 10]) ∧
    (∀ line dir, updateWD line dir = dir ∨ updateWD line dir ∈ wdLabels) ∧
    (∀ input id, ∃ p : String,
      (sendData input id).data = p.data ++ input.direction.data ++ [';']) ∧
    (∀ input, isUnsafeDirection input =
      (input.direction == "selatan" || input.direction == "barat daya")) := by
  refine ⟨by decide, ?_, ?_, ?_⟩
  · intro line dir
    show updateWD_token (wdToken line) dir = dir ∨
      updateWD_token (wdToken line) dir ∈ wdLabels
    generalize wdToken line = s
    by_cases h1 : s = "1"
    · right; simp [updateWD_token, h1, wdLabels]
    by_cases h2 : s = "2"
    · right; simp [updateWD_token, h2, wdLabels]
    by_cases h3 : s = "3"
    · right; simp [updateWD_token, h3, wdLabels]
    by_cases h4 : s = "4"
    · right; simp [updateWD_token, h4, wdLabels]
    by_cases h5 : s = "5"
    · right; simp [updateWD_token, h5, wdLabels]
    by_cases h6 : s = "6"
    · right; simp [updateWD_token, h6, wdLabels]
    by_cases h7 : s = "7"
    · right; simp [updateWD_token, h7, wdLabels]
    by_cases h8 : s = "8"
    · right; simp [updateWD_token, h8, wdLabels]
    left
    simp [updateWD_token, h1, h2, h3, h4, h5, h6, h7, h8]
  · intro input id
    refine ⟨id ++ "," ++ input.shoreStatus ++ "," ++
      fmtFloat input.temperature ++ "," ++ fmtFloat input.pressure ++ "," ++
      fmtFloat input.humidity ++ "," ++ fmtFloat input.speed ++ ",", ?_⟩
    have hcomma : ("," : String).data = [','] := rfl
    have hsemi : (";" : String).data = [';'] := rfl
    simp [sendData, encodeFields, String.data_append, hcomma, hsemi,
      List.append_assoc]
  · intro input
    simp [isUnsafeDirection, unsafeDirections]
